import Mathlib

/-!
Verification of the logstash-tools sink library (src/logstash/init file).

The Python module defines a console sink (StdoutSink), a Redis-backed sink
(RedisSink) with a one-retry/backoff delivery protocol, and a config reader
(read_config).  We embed the module shallowly:

- JSON values and the serialization performed by json.dumps (default
  separators, ensure_ascii escaping; numbers are modelled as integers, which
  covers every value the claims mention).
- The Redis backend and the observable side effects (store contents, sleeps,
  logged errors) are modelled by an explicit World.  Backend calls consume
  scripted responses: pushScript drives successive rpush calls and pingScript
  drives successive ping calls; a response of none is success and a response
  of some k is a redis.exceptions.RedisError of kind k (timeout, refused
  connection, protocol error).  An exhausted script behaves as a connection
  failure.  Quantifying over scripts quantifies over backend failure modes.
- Python exceptions are modelled by an Option PyError / Except PyError result
  component; a try/except block becomes a match on that component.
- logging: the module creates the channel log_output with level WARN, so the
  two log_output.info calls emit nothing and only log_output.error calls are
  observable; World counts them in errorsLogged.
-/

/-- JSON values as produced by json.loads / consumed by json.dumps.
Numbers are modelled as integers (the repository never serializes floats in
any specified scenario). -/
inductive Json where
  | null : Json
  | bool (b : Bool) : Json
  | num (n : Int) : Json
  | str (s : String) : Json
  | arr (xs : List Json) : Json
  | obj (kvs : List (String × Json)) : Json
deriving Repr

/-- Lower-case hexadecimal digit, as used by json.dumps \u escapes. -/
def hexDigit (n : Nat) : Char :=
  if n < 10 then Char.ofNat (48 + n) else Char.ofNat (87 + n)

/-- Four-digit lower-case hexadecimal rendering of a code unit. -/
def u16hex (n : Nat) : List Char :=
  [hexDigit (n / 4096 % 16), hexDigit (n / 256 % 16), hexDigit (n / 16 % 16), hexDigit (n % 16)]

/-- Escaping of one character inside a JSON string, following json.dumps with
its default ensure_ascii=True: the two-character escapes for quote, backslash
and the common control characters, \u escapes for the remaining control
characters and for all non-ASCII characters (astral characters become
surrogate pairs). -/
def escChar (c : Char) : List Char :=
  if c = '\x22' then ['\\', '\x22']
  else if c = '\\' then ['\\', '\\']
  else if c = '\n' then ['\\', 'n']
  else if c = '\t' then ['\\', 't']
  else if c = '\r' then ['\\', 'r']
  else if c = '\x08' then ['\\', 'b']
  else if c = '\x0c' then ['\\', 'f']
  else if c.toNat < 32 then '\\' :: 'u' :: u16hex c.toNat
  else if c.toNat < 128 then [c]
  else if c.toNat < 65536 then '\\' :: 'u' :: u16hex c.toNat
  else
    ('\\' :: 'u' :: u16hex (55296 + (c.toNat - 65536) / 1024)) ++
      ('\\' :: 'u' :: u16hex (56320 + (c.toNat - 65536) % 1024))

/-- Body of a JSON string literal: every character escaped as json.dumps does. -/
def jsonEscape (s : String) : String :=
  String.mk (s.data.map escChar).flatten

mutual
/-- json.dumps with its default arguments: item separator a comma plus a
space, key separator a colon plus a space, ensure_ascii escaping, insertion
order preserved for objects. -/
def Json.dumps : Json → String
  | .null => "null"
  | .bool true => "true"
  | .bool false => "false"
  | .num n => toString n
  | .str s => "\x22" ++ jsonEscape s ++ "\x22"
  | .arr xs => "[" ++ Json.dumpsArr xs ++ "]"
  | .obj kvs => "\x7b" ++ Json.dumpsObj kvs ++ "\x7d"

/-- Array items joined by a comma and a space. -/
def Json.dumpsArr : List Json → String
  | [] => ""
  | [x] => Json.dumps x
  | x :: y :: xs => Json.dumps x ++ ", " ++ Json.dumpsArr (y :: xs)

/-- Object entries, each a quoted key, a colon, a space and the value, joined
by a comma and a space. -/
def Json.dumpsObj : List (String × Json) → String
  | [] => ""
  | [(k, v)] => "\x22" ++ jsonEscape k ++ "\x22: " ++ Json.dumps v
  | (k, v) :: p :: xs =>
      "\x22" ++ jsonEscape k ++ "\x22: " ++ Json.dumps v ++ ", " ++ Json.dumpsObj (p :: xs)
end

/-- A log record: the kwargs mapping handed to Sink.log. -/
def Record := List (String × Json)

/-- The failure modes of a redis.exceptions.RedisError raised by a backend
call (socket timeout, refused connection, protocol error from a malformed
response).  All of them are subclasses of RedisError, hence caught by the
outer except clause of RedisSink.log. -/
inductive RedisErrKind where
  | timeout : RedisErrKind
  | connectionRefused : RedisErrKind
  | protocolError : RedisErrKind
deriving Repr, DecidableEq

/-- Python exceptions the embedded code can raise. -/
inductive PyError where
  | redisError (k : RedisErrKind) : PyError
  | keyError (k : String) : PyError
  | typeError : PyError
deriving Repr, DecidableEq

/-- Does the except redis.exceptions.RedisError clause catch this exception? -/
def PyError.isRedisError : PyError → Bool
  | .redisError _ => true
  | _ => false

/-- The backend plus every observable side effect of the sink code.
store is the Redis database: the list of (key, value) pairs in rpush order.
pushScript and pingScript are the scripted backend responses consumed by
successive rpush and ping calls (none is success, some k a RedisError of
kind k; an exhausted script fails as a refused connection).  nextConnId
numbers the StrictRedis connection objects as they are constructed.
pushAttempts and pingAttempts count backend calls, errorsLogged counts
log_output.error lines, sleeps records the durations of time.sleep calls. -/
structure World where
  store : List (String × String)
  pushScript : List (Option RedisErrKind)
  pingScript : List (Option RedisErrKind)
  nextConnId : Nat
  pushAttempts : Nat
  pingAttempts : Nat
  errorsLogged : Nat
  sleeps : List Nat
deriving Repr, DecidableEq

/-- conn.rpush(key, value): appends value at the tail of the list at key when
the scripted response is success, otherwise raises the scripted RedisError. -/
def World.rpush (w : World) (key value : String) : Option PyError × World :=
  let w1 := { w with pushAttempts := w.pushAttempts + 1 }
  match w1.pushScript with
  | [] => (some (.redisError .connectionRefused), w1)
  | r :: rest =>
    match r with
    | none => (none, { w1 with pushScript := rest, store := w1.store ++ [(key, value)] })
    | some kind => (some (.redisError kind), { w1 with pushScript := rest })

/-- conn.ping(): succeeds or raises the scripted RedisError. -/
def World.pingBackend (w : World) : Option PyError × World :=
  let w1 := { w with pingAttempts := w.pingAttempts + 1 }
  match w1.pingScript with
  | [] => (some (.redisError .connectionRefused), w1)
  | r :: rest =>
    match r with
    | none => (none, { w1 with pingScript := rest })
    | some kind => (some (.redisError kind), { w1 with pingScript := rest })

/-- log_output.error(...): one observable error line. -/
def World.logError (w : World) : World :=
  { w with errorsLogged := w.errorsLogged + 1 }

/-- time.sleep(secs): blocks the calling thread, recorded in the trace. -/
def World.sleep (w : World) (secs : Nat) : World :=
  { w with sleeps := w.sleeps ++ [secs] }

/-- DEFAULT_RETRY from the module header. -/
def DEFAULT_RETRY : Nat := 10

/-- The RedisSink instance state: constructor arguments host, port, key, the
mutable backoff counter and the current connection object (None before the
first connect; afterwards the id of the StrictRedis object held). -/
structure RedisSink where
  host : String
  port : Nat
  key : String
  _backoff : Nat
  _conn : Option Nat
deriving Repr, DecidableEq

/-- RedisSink.connect: logs an info line (suppressed at WARN level), assigns
a freshly constructed StrictRedis object to the conn field, then pings it.
The assignment happens before the ping, so the field holds the new object
even when the liveness check raises.  The third component is the pending
exception of the ping, propagated to the caller of connect. -/
def RedisSink._connect (s : RedisSink) (w : World) : RedisSink × World × Option PyError :=
  let s1 := { s with _conn := some w.nextConnId }
  let w1 := { w with nextConnId := w.nextConnId + 1 }
  let r := w1.pingBackend
  (s1, r.2, r.1)

/-- RedisSink constructor: initializes backoff to DEFAULT_RETRY and the conn
field to None, then calls connect.  An exception from connect (the initial
connection or its liveness check) propagates: the result is an error and no
sink instance is produced. -/
def RedisSink.init (host key : String) (port : Nat) (w : World) :
    World × Except PyError RedisSink :=
  let s0 : RedisSink :=
    { host := host, port := port, key := key, _backoff := DEFAULT_RETRY, _conn := none }
  let r := s0._connect w
  match r.2.2 with
  | none => (r.2.1, .ok r.1)
  | some e => (r.2.1, .error e)

/-- RedisSink.log: try rpush of the serialized record; on success reset the
backoff to DEFAULT_RETRY.  On a RedisError: log it, sleep for the current
backoff, double the backoff, then in an inner try reconnect and rpush once
more; any exception there (reconnect failure or retry failure) is caught by
the except Exception clause and logged, dropping the record.  The result
carries the sink state, the world, and the exception propagated to the
caller, if any.  Note that a successful retry rpush does not reset the
backoff. -/
def RedisSink.log (s : RedisSink) (w : World) (kwargs : Record) :
    RedisSink × World × Option PyError :=
  let r1 := w.rpush s.key (Json.dumps (.obj kwargs))
  match r1.1 with
  | none => ({ s with _backoff := DEFAULT_RETRY }, r1.2, none)
  | some err =>
    if err.isRedisError then
      let w2 := (r1.2.logError).sleep s._backoff
      let s2 := { s with _backoff := s._backoff * 2 }
      let c := s2._connect w2
      match c.2.2 with
      | some _ => (c.1, c.2.1.logError, none)
      | none =>
        let r2 := c.2.1.rpush c.1.key (Json.dumps (.obj kwargs))
        match r2.1 with
        | none => (c.1, r2.2, none)
        | some _ => (c.1, r2.2.logError, none)
    else
      (s, r1.2, some err)

/-- RedisSink.ping: direct liveness probe delegated to the connection. -/
def RedisSink.ping (_s : RedisSink) (w : World) : Option PyError × World :=
  w.pingBackend

/-- A sequence of log calls on one sink instance, in order. -/
def runLogs (s : RedisSink) (w : World) : List Record → RedisSink × World
  | [] => (s, w)
  | r :: rs => runLogs (s.log w r).1 (s.log w r).2.1 rs

/-- print(text): writes text and a newline to the stdout stream. -/
def pyPrint (text : String) (out : String) : String :=
  out ++ text ++ "\n"

/-- StdoutSink.log: prints the json.dumps serialization of the kwargs. -/
def StdoutSink.log (kwargs : Record) (out : String) : String :=
  pyPrint (Json.dumps (.obj kwargs)) out

/-- The list stored at one key of the Redis database, in push order. -/
def listAt (store : List (String × String)) (k : String) : List String :=
  (store.filter (fun p => p.1 == k)).map Prod.snd

/-- True when the next scripted backend response exists and is success. -/
def headOk (script : List (Option RedisErrKind)) : Bool :=
  match script with
  | [] => false
  | r :: _ => r.isNone

/-- True when the next backend call fails (scripted error or exhausted
script). -/
def headFails (script : List (Option RedisErrKind)) : Bool :=
  match script with
  | [] => true
  | r :: _ => r.isSome

/-- True when every call served by this script fails. -/
def allFail (script : List (Option RedisErrKind)) : Bool :=
  script.all Option.isSome

/-- True when every scripted response is success. -/
def allOk (script : List (Option RedisErrKind)) : Bool :=
  script.all Option.isNone

/-- Concrete sink instance used by the closed witnesses below. -/
def sinkA : RedisSink :=
  { host := "localhost", port := 6379, key := "events",
    _backoff := DEFAULT_RETRY, _conn := some 0 }

/-- Concrete record used by the closed witnesses below. -/
def sampleRecord : Record := [("msg", Json.str "hello"), ("level", Json.str "info")]

/-- Backend script for one failed primary append followed by a successful
reconnect and a successful retried append. -/
def worldRetrySucceeds : World :=
  { store := [], pushScript := [some .timeout, none], pingScript := [none],
    nextConnId := 1, pushAttempts := 0, pingAttempts := 0, errorsLogged := 0, sleeps := [] }

/-- Backend script on which every backend call succeeds. -/
def worldAllOk : World :=
  { store := [], pushScript := [none, none], pingScript := [none],
    nextConnId := 1, pushAttempts := 0, pingAttempts := 0, errorsLogged := 0, sleeps := [] }

/-- Backend script where every append call fails but the reconnect liveness
check succeeds. -/
def worldPushFailPingOk : World :=
  { store := [], pushScript := [some .timeout, some .connectionRefused],
    pingScript := [none], nextConnId := 1, pushAttempts := 0, pingAttempts := 0,
    errorsLogged := 0, sleeps := [] }

/-- Backend script that is down for good: every append and every liveness
check fails. -/
def worldAllFail : World :=
  { store := [], pushScript := [], pingScript := [], nextConnId := 1,
    pushAttempts := 0, pingAttempts := 0, errorsLogged := 0, sleeps := [] }

/-- Backend script for a failure episode whose reconnect liveness check also
fails. -/
def worldReconnectFails : World :=
  { store := [], pushScript := [some .timeout], pingScript := [some .connectionRefused],
    nextConnId := 1, pushAttempts := 0, pingAttempts := 0, errorsLogged := 0, sleeps := [] }

/-- A second concrete record used by the closed witnesses below. -/
def sampleRecord2 : Record := [("level", Json.str "warn")]

/-- Is a constructor outcome the propagation of an exception? -/
def isError (r : Except PyError RedisSink) : Bool :=
  match r with
  | .error _ => true
  | .ok _ => false

/-- Last-wins lookup in a JSON object: a Python dict built by json.loads
resolves duplicate keys to the last occurrence. -/
def lookupLast (kvs : List (String × Json)) (k : String) : Option Json :=
  match kvs with
  | [] => none
  | (k0, v) :: rest =>
    match lookupLast rest k with
    | some v1 => some v1
    | none => if k0 == k then some v else none

/-- Python subscript cfg[k]: the value when the object holds the key, a
KeyError when an object lacks it, a TypeError on a non-object document. -/
def getItem (j : Json) (k : String) : Except PyError Json :=
  match j with
  | .obj kvs =>
    match lookupLast kvs k with
    | some v => .ok v
    | none => .error (.keyError k)
  | _ => .error .typeError

/-- The observable outcome of a read_config call: the returned pair, a
propagated exception, or process termination via sys.exit. -/
inductive ConfigOutcome where
  | ok (inp outp : Json) : ConfigOutcome
  | raised (e : PyError) : ConfigOutcome
  | exited (code : Int) : ConfigOutcome

/-- read_config, embedded over the outcome of json.loads on the file
contents (none is a ValueError, some the parsed document): a parse failure
is logged and terminates the process with exit status -1; otherwise the
function returns the pair of the input and output entries, where the
subscript on a missing key raises a KeyError that propagates (the input key
is evaluated first). -/
def read_config (parsed : Option Json) : ConfigOutcome :=
  match parsed with
  | none => .exited (-1)
  | some cfg =>
    match getItem cfg "input" with
    | .error e => .raised e
    | .ok inp =>
      match getItem cfg "output" with
      | .error e => .raised e
      | .ok outp => .ok inp outp

/-- Does the object hold the key? -/
def hasKey (kvs : List (String × Json)) (k : String) : Bool :=
  kvs.any (fun p => p.1 == k)

/-- A script whose every response is a failure keeps that property when a
call consumes its head. -/
theorem allFail_tail (script : List (Option RedisErrKind)) (h : allFail script = true) :
    allFail script.tail = true := by
  cases script with
  | nil => simp [allFail]
  | cons r rest => simp [allFail] at h ⊢; exact h.2

/-- Claim C1: for every record and every scripted backend behaviour —
covering success and each RedisError failure mode (timeout, refused
connection, protocol error) at the primary append, the reconnect liveness
check and the retried append — RedisSink.log returns normally: the exception
component of its result is always none. -/
theorem log_never_raises (s : RedisSink) (w : World) (kwargs : Record) :
    (s.log w kwargs).2.2 = none := by
  obtain ⟨st, ps, qs, ni, pa, ga, el, sl⟩ := w
  rcases ps with _ | ⟨(_ | k), rest⟩ <;>
    rcases qs with _ | ⟨(_ | k2), qrest⟩ <;>
      (try rcases rest with _ | ⟨(_ | k3), rest2⟩) <;>
        simp [RedisSink.log, World.rpush, World.pingBackend, RedisSink._connect,
          World.logError, World.sleep, PyError.isRedisError]

/-- Claim C2 counterexample: on a backend whose primary append times out but
whose reconnect and retried append succeed, the record is delivered (the
store receives it), yet the backoff counter ends at 20, not at the default
10: the code resets the counter only on the primary success path, never
after a successful retry append. -/
theorem backoff_not_reset_after_retry_success :
    (sinkA.log worldRetrySucceeds sampleRecord).2.1.store =
      [("events", Json.dumps (.obj sampleRecord))] ∧
    (sinkA.log worldRetrySucceeds sampleRecord).1._backoff = 20 ∧
    (sinkA.log worldRetrySucceeds sampleRecord).1._backoff ≠ DEFAULT_RETRY := by
  refine ⟨rfl, rfl, by decide⟩

/-- Claim C2, amended: after a successful append on the primary path the
backoff counter equals the default 10; after a primary failure the counter
is doubled and keeps that doubled value for the rest of the call, even when
the retried append succeeds. -/
theorem backoff_reset_primary_only (s : RedisSink) (w : World) (kwargs : Record) :
    (headOk w.pushScript = true → (s.log w kwargs).1._backoff = DEFAULT_RETRY) ∧
    (headFails w.pushScript = true → (s.log w kwargs).1._backoff = s._backoff * 2) := by
  obtain ⟨st, ps, qs, ni, pa, ga, el, sl⟩ := w
  rcases ps with _ | ⟨(_ | k), rest⟩ <;>
    rcases qs with _ | ⟨(_ | k2), qrest⟩ <;>
      (try rcases rest with _ | ⟨(_ | k3), rest2⟩) <;>
        simp [RedisSink.log, World.rpush, World.pingBackend, RedisSink._connect,
          World.logError, World.sleep, PyError.isRedisError, headOk, headFails]

theorem backoff_reset_primary_only_witness :
    (sinkA.log worldAllOk sampleRecord).1._backoff = DEFAULT_RETRY :=
  (backoff_reset_primary_only sinkA worldAllOk sampleRecord).1 (by decide)

/-- Claim C3: against a backend whose append operation fails on every call,
a log invocation whose reconnect succeeds makes exactly two append attempts
(the original plus one retry); and no log invocation, against any backend,
ever makes more than two append attempts. -/
theorem log_at_most_one_retry (s : RedisSink) (w : World) (kwargs : Record)
    (hfail : allFail w.pushScript = true) (hping : headFails w.pingScript = false) :
    (s.log w kwargs).2.1.pushAttempts = w.pushAttempts + 2 ∧
    ∀ (s2 : RedisSink) (w2 : World) (k2 : Record),
      (s2.log w2 k2).2.1.pushAttempts ≤ w2.pushAttempts + 2 := by
  constructor
  · obtain ⟨st, ps, qs, ni, pa, ga, el, sl⟩ := w
    rcases ps with _ | ⟨(_ | k), rest⟩ <;>
      rcases qs with _ | ⟨(_ | k2), qrest⟩ <;>
        (try rcases rest with _ | ⟨(_ | k3), rest2⟩) <;>
          simp_all [RedisSink.log, World.rpush, World.pingBackend, RedisSink._connect,
            World.logError, World.sleep, PyError.isRedisError, allFail, headFails]
  · intro s2 w2 k2
    obtain ⟨st, ps, qs, ni, pa, ga, el, sl⟩ := w2
    rcases ps with _ | ⟨(_ | k), rest⟩ <;>
      rcases qs with _ | ⟨(_ | k2), qrest⟩ <;>
        (try rcases rest with _ | ⟨(_ | k3), rest2⟩) <;>
          simp_all [RedisSink.log, World.rpush, World.pingBackend, RedisSink._connect,
            World.logError, World.sleep, PyError.isRedisError]

/-- Claim C3 witness: one call against a backend with failing appends and a
working reconnect makes exactly two append attempts. -/
theorem log_at_most_one_retry_witness :
    (sinkA.log worldPushFailPingOk sampleRecord).2.1.pushAttempts =
      worldPushFailPingOk.pushAttempts + 2 :=
  (log_at_most_one_retry sinkA worldPushFailPingOk sampleRecord
    (by decide) (by decide)).1

/-- One log call against a backend whose appends all fail doubles the
backoff, sleeps for the old backoff, and leaves a pushScript that still
always fails. -/
theorem log_allFail_step (s : RedisSink) (w : World) (kwargs : Record)
    (h : allFail w.pushScript = true) :
    (s.log w kwargs).1._backoff = s._backoff * 2 ∧
    (s.log w kwargs).2.1.sleeps = w.sleeps ++ [s._backoff] ∧
    allFail (s.log w kwargs).2.1.pushScript = true := by
  obtain ⟨st, ps, qs, ni, pa, ga, el, sl⟩ := w
  rcases ps with _ | ⟨(_ | k), rest⟩ <;>
    rcases qs with _ | ⟨(_ | k2), qrest⟩ <;>
      (try rcases rest with _ | ⟨(_ | k3), rest2⟩) <;>
        simp_all [RedisSink.log, World.rpush, World.pingBackend, RedisSink._connect,
          World.logError, World.sleep, PyError.isRedisError, allFail]

/-- Running any number of log calls against a backend whose appends all fail
multiplies the backoff by two per call and extends the sleep trace with the
successive backoff values. -/
theorem runLogs_allFail (recs : List Record) (s : RedisSink) (w : World)
    (h : allFail w.pushScript = true) :
    (runLogs s w recs).1._backoff = s._backoff * 2 ^ recs.length ∧
    (runLogs s w recs).2.sleeps =
      w.sleeps ++ (List.range recs.length).map (fun k => s._backoff * 2 ^ k) := by
  induction recs generalizing s w with
  | nil => simp [runLogs]
  | cons r rs ih =>
    obtain ⟨h1, h2, h3⟩ := log_allFail_step s w r h
    obtain ⟨ih1, ih2⟩ := ih (s.log w r).1 (s.log w r).2.1 h3
    rw [runLogs]
    constructor
    · rw [ih1]
      simp only [h1, List.length_cons, pow_succ]
      ring
    · rw [ih2]
      simp only [h1, h2, List.length_cons, List.range_succ_eq_map, List.map_cons,
        List.map_map, pow_zero, mul_one, List.append_assoc, List.singleton_append]
      congr 2
      refine List.map_congr_left fun k _ => ?_
      simp only [Function.comp_apply, pow_succ]
      ring

/-- Claim C4: starting from a sink whose backoff is at the default, after N
consecutive failure episodes with no intervening success the backoff equals
10 * 2 ^ N, and the sleep during the k-th episode (0-indexed entry k of the
trace) lasts 10 * 2 ^ k seconds: the counter is doubled after the sleep, not
before. -/
theorem backoff_growth (s : RedisSink) (w : World) (recs : List Record)
    (hfail : allFail w.pushScript = true) (hb : s._backoff = DEFAULT_RETRY) :
    (runLogs s w recs).1._backoff = 10 * 2 ^ recs.length ∧
    (runLogs s w recs).2.sleeps =
      w.sleeps ++ (List.range recs.length).map (fun k => 10 * 2 ^ k) := by
  obtain ⟨g1, g2⟩ := runLogs_allFail recs s w hfail
  simp only [hb, DEFAULT_RETRY] at g1 g2
  exact ⟨g1, g2⟩

/-- Claim C4 witness: two consecutive failure episodes on a fresh sink end
with backoff 40 and sleep trace 10 then 20 seconds. -/
theorem backoff_growth_witness :
    (runLogs sinkA worldAllFail [sampleRecord, sampleRecord]).1._backoff = 10 * 2 ^ 2 ∧
    (runLogs sinkA worldAllFail [sampleRecord, sampleRecord]).2.sleeps =
      worldAllFail.sleeps ++ (List.range 2).map (fun k => 10 * 2 ^ k) :=
  backoff_growth sinkA worldAllFail [sampleRecord, sampleRecord] (by decide) (by decide)

/-- An all-success script keeps that property when a call consumes its head. -/
theorem allOk_tail (script : List (Option RedisErrKind)) (h : allOk script = true) :
    allOk script.tail = true := by
  cases script with
  | nil => simp [allOk]
  | cons r rest => simp [allOk] at h ⊢; exact h.2

/-- One log call whose scripted primary append succeeds: the serialized
record is appended at the tail of the store, the backoff resets to the
default, one script entry is consumed, and nothing else changes. -/
theorem log_ok_step (s : RedisSink) (w : World) (kwargs : Record)
    (h : headOk w.pushScript = true) :
    (s.log w kwargs).1 = { s with _backoff := DEFAULT_RETRY } ∧
    (s.log w kwargs).2.1 =
      { w with pushAttempts := w.pushAttempts + 1,
               pushScript := w.pushScript.tail,
               store := w.store ++ [(s.key, Json.dumps (.obj kwargs))] } := by
  obtain ⟨st, ps, qs, ni, pa, ga, el, sl⟩ := w
  rcases ps with _ | ⟨(_ | k), rest⟩ <;>
    simp_all [RedisSink.log, World.rpush, headOk]

/-- Running log calls against an all-success append script appends the
serialized records to the store in call order. -/
theorem runLogs_allOk (recs : List Record) (s : RedisSink) (w : World)
    (hok : allOk w.pushScript = true) (hlen : recs.length ≤ w.pushScript.length) :
    (runLogs s w recs).2.store =
      w.store ++ recs.map (fun r => (s.key, Json.dumps (.obj r))) := by
  induction recs generalizing s w with
  | nil => simp [runLogs]
  | cons r rs ih =>
    have hne : w.pushScript ≠ [] := by
      intro hemp
      rw [hemp] at hlen
      simp at hlen
    have hhead : headOk w.pushScript = true := by
      cases hps : w.pushScript with
      | nil => exact absurd hps hne
      | cons a rest =>
        rw [hps] at hok
        simp [allOk] at hok
        simp [headOk, hok.1]
    obtain ⟨e1, e2⟩ := log_ok_step s w r hhead
    have htl : rs.length ≤ w.pushScript.tail.length := by
      cases hps : w.pushScript with
      | nil => exact absurd hps hne
      | cons a rest =>
        rw [hps] at hlen
        simpa using Nat.le_of_succ_le_succ hlen
    rw [runLogs, e1, e2]
    rw [ih { s with _backoff := DEFAULT_RETRY }
      { w with pushAttempts := w.pushAttempts + 1,
               pushScript := w.pushScript.tail,
               store := w.store ++ [(s.key, Json.dumps (.obj r))] }
      (by simpa using allOk_tail _ hok) (by simpa using htl)]
    simp

/-- Reading one key of the store distributes over store concatenation. -/
theorem listAt_append (a b : List (String × String)) (k : String) :
    listAt (a ++ b) k = listAt a k ++ listAt b k := by
  simp [listAt, List.filter_append]

/-- The pairs a sink pushes for its own key all land in the list at that
key, in order. -/
theorem listAt_pushed (recs : List Record) (key : String) :
    listAt (recs.map (fun r => (key, Json.dumps (.obj r)))) key =
      recs.map (fun r => Json.dumps (.obj r)) := by
  induction recs with
  | nil => rfl
  | cons r rs ih => simp [listAt, List.filter_cons] at ih ⊢; exact ih

/-- Claim C5: for every sequence of log calls served by an all-success
append script (each call's append succeeds), the store is extended by one
pair per call at its tail, and the list at the destination key receives the
serialized records in exactly the call order. -/
theorem store_receives_call_order (s : RedisSink) (w : World) (recs : List Record)
    (hok : allOk w.pushScript = true) (hlen : recs.length ≤ w.pushScript.length) :
    (runLogs s w recs).2.store =
      w.store ++ recs.map (fun r => (s.key, Json.dumps (.obj r))) ∧
    listAt (runLogs s w recs).2.store s.key =
      listAt w.store s.key ++ recs.map (fun r => Json.dumps (.obj r)) := by
  have h := runLogs_allOk recs s w hok hlen
  refine ⟨h, ?_⟩
  rw [h, listAt_append, listAt_pushed]

theorem store_receives_call_order_witness :
    (runLogs sinkA worldAllOk [sampleRecord, sampleRecord2]).2.store =
      worldAllOk.store ++
        [sampleRecord, sampleRecord2].map (fun r => (sinkA.key, Json.dumps (.obj r))) ∧
    listAt (runLogs sinkA worldAllOk [sampleRecord, sampleRecord2]).2.store sinkA.key =
      listAt worldAllOk.store sinkA.key ++
        [sampleRecord, sampleRecord2].map (fun r => Json.dumps (.obj r)) :=
  store_receives_call_order sinkA worldAllOk [sampleRecord, sampleRecord2]
    (by decide) (by decide)

/-- Claim C6: the RedisSink constructor immediately constructs a connection
and performs exactly one liveness check; its result propagates an exception
(so no sink instance results) precisely when that check fails, and on
success the sink instance holds the fresh connection and the default
backoff. -/
theorem init_connects_and_checks (host key : String) (port : Nat) (w : World) :
    (RedisSink.init host key port w).1.pingAttempts = w.pingAttempts + 1 ∧
    (RedisSink.init host key port w).1.nextConnId = w.nextConnId + 1 ∧
    isError (RedisSink.init host key port w).2 = headFails w.pingScript ∧
    (headFails w.pingScript = false →
      (RedisSink.init host key port w).2 =
        .ok { host := host, port := port, key := key,
              _backoff := DEFAULT_RETRY, _conn := some w.nextConnId }) := by
  obtain ⟨st, ps, qs, ni, pa, ga, el, sl⟩ := w
  rcases qs with _ | ⟨(_ | k), qrest⟩ <;>
    simp [RedisSink.init, RedisSink._connect, World.pingBackend, isError, headFails]

/-- Claim C6 witness: against a live backend the constructor returns the
connected sink instance. -/
theorem init_connects_and_checks_witness :
    (RedisSink.init "localhost" "events" 6379 worldAllOk).2 =
      .ok { host := "localhost", port := 6379, key := "events",
            _backoff := DEFAULT_RETRY, _conn := some worldAllOk.nextConnId } :=
  (init_connects_and_checks "localhost" "events" 6379 worldAllOk).2.2.2 (by decide)

/-- Claim C7: when the primary append fails and then the reconnect fails or
the retried append fails, log logs the second error line, leaves the store
unchanged for that record, and still returns normally to the caller. -/
theorem log_drops_record_on_second_failure (s : RedisSink) (w : World) (kwargs : Record)
    (h1 : headFails w.pushScript = true)
    (h2 : headFails w.pingScript = true ∨ headFails w.pushScript.tail = true) :
    (s.log w kwargs).2.2 = none ∧
    (s.log w kwargs).2.1.store = w.store ∧
    (s.log w kwargs).2.1.errorsLogged = w.errorsLogged + 2 := by
  obtain ⟨st, ps, qs, ni, pa, ga, el, sl⟩ := w
  rcases ps with _ | ⟨(_ | k), rest⟩ <;>
    rcases qs with _ | ⟨(_ | k2), qrest⟩ <;>
      (try rcases rest with _ | ⟨(_ | k3), rest2⟩) <;>
        simp_all [RedisSink.log, World.rpush, World.pingBackend, RedisSink._connect,
          World.logError, World.sleep, PyError.isRedisError, headFails]

/-- Claim C7 witness: one call against a dead backend logs the reconnect
error as a second error line, drops the record and returns normally. -/
theorem log_drops_record_on_second_failure_witness :
    (sinkA.log worldReconnectFails sampleRecord).2.2 = none ∧
    (sinkA.log worldReconnectFails sampleRecord).2.1.store = worldReconnectFails.store ∧
    (sinkA.log worldReconnectFails sampleRecord).2.1.errorsLogged =
      worldReconnectFails.errorsLogged + 2 :=
  log_drops_record_on_second_failure sinkA worldReconnectFails sampleRecord
    (by decide) (Or.inl (by decide))

/-- Claim C9: on the reconnect performed after a primary append failure the
sink's one connection field is overwritten with the freshly constructed
connection object — also when the liveness check on that new connection
fails — and exactly one new connection object is constructed, so the old
connection is never retained alongside a new one. -/
theorem reconnect_replaces_connection (s : RedisSink) (w : World) (kwargs : Record)
    (h : headFails w.pushScript = true) :
    (s.log w kwargs).1._conn = some w.nextConnId ∧
    (s.log w kwargs).2.1.nextConnId = w.nextConnId + 1 := by
  obtain ⟨st, ps, qs, ni, pa, ga, el, sl⟩ := w
  rcases ps with _ | ⟨(_ | k), rest⟩ <;>
    rcases qs with _ | ⟨(_ | k2), qrest⟩ <;>
      (try rcases rest with _ | ⟨(_ | k3), rest2⟩) <;>
        simp_all [RedisSink.log, World.rpush, World.pingBackend, RedisSink._connect,
          World.logError, World.sleep, PyError.isRedisError, headFails]

/-- Claim C9 witness: after a failure episode whose liveness check fails,
the connection field refers to the new connection object. -/
theorem reconnect_replaces_connection_witness :
    (sinkA.log worldReconnectFails sampleRecord).1._conn =
      some worldReconnectFails.nextConnId ∧
    (sinkA.log worldReconnectFails sampleRecord).2.1.nextConnId =
      worldReconnectFails.nextConnId + 1 :=
  reconnect_replaces_connection sinkA worldReconnectFails sampleRecord (by decide)

/-- Claim C8: StdoutSink.log writes to stdout exactly the json.dumps
serialization of the record followed by one newline; for the record with
the single key a bound to 1, the line written is open brace, quoted a,
colon, space, the digit 1, close brace, newline. -/
theorem stdout_writes_json_line (kwargs : Record) (out : String) :
    StdoutSink.log kwargs out = out ++ Json.dumps (.obj kwargs) ++ "\n" ∧
    StdoutSink.log [("a", Json.num 1)] "" = "\x7b\x22a\x22: 1\x7d\n" :=
  ⟨rfl, rfl⟩

/-- Lookup misses exactly on the objects that do not hold the key. -/
theorem lookupLast_eq_none (kvs : List (String × Json)) (k : String)
    (h : hasKey kvs k = false) : lookupLast kvs k = none := by
  induction kvs with
  | nil => rfl
  | cons p rest ih =>
    obtain ⟨k0, v⟩ := p
    simp only [hasKey, List.any_cons, Bool.or_eq_false_iff] at h
    rw [lookupLast, ih h.2]
    simp [h.1]

/-- Lookup hits on every object that holds the key. -/
theorem lookupLast_isSome (kvs : List (String × Json)) (k : String)
    (h : hasKey kvs k = true) : (lookupLast kvs k).isSome = true := by
  induction kvs with
  | nil => simp [hasKey] at h
  | cons p rest ih =>
    obtain ⟨k0, v⟩ := p
    rw [lookupLast]
    cases hl : lookupLast rest k with
    | some v1 => simp
    | none =>
      simp only [hasKey, List.any_cons, Bool.or_eq_true] at h
      rcases h with h | h
      · simp [h]
      · have := ih h
        rw [hl] at this
        simp at this

/-- Claim C10: a config document that parses as JSON but lacks a top-level
input or output key makes read_config raise a KeyError that propagates to
the caller (the input key is checked first); a parsed document never
terminates the process, and only a parse failure produces the logged error
and the nonzero exit status. -/
theorem read_config_keyerror_propagates (kvs : List (String × Json)) :
    (hasKey kvs "input" = false →
      read_config (some (.obj kvs)) = .raised (.keyError "input")) ∧
    (hasKey kvs "input" = true → hasKey kvs "output" = false →
      read_config (some (.obj kvs)) = .raised (.keyError "output")) ∧
    (∀ c : Int, read_config (some (.obj kvs)) ≠ .exited c) ∧
    read_config none = .exited (-1) := by
  refine ⟨?_, ?_, ?_, rfl⟩
  · intro h
    simp [read_config, getItem, lookupLast_eq_none kvs "input" h]
  · intro h1 h2
    obtain ⟨v, hv⟩ := Option.isSome_iff_exists.mp (lookupLast_isSome kvs "input" h1)
    simp [read_config, getItem, hv, lookupLast_eq_none kvs "output" h2]
  · intro c
    simp only [read_config]
    cases hi : getItem (.obj kvs) "input" with
    | error e => simp
    | ok inp =>
      cases ho : getItem (.obj kvs) "output" with
      | error e => simp
      | ok outp => simp

/-- Claim C10 witness: a parsed document with neither key raises the
KeyError for the input key. -/
theorem read_config_keyerror_propagates_witness :
    read_config (some (.obj [("x", Json.num 1)])) = .raised (.keyError "input") :=
  (read_config_keyerror_propagates [("x", Json.num 1)]).1 (by decide)
